import Mathlib

/-!
Shallow embedding of the decodeless mappedfile library, POSIX back-end
(include/decodeless/detail/mappedfile_linux.hpp), together with the parts of
the front end (include/decodeless/mappedfile.hpp) that the verified properties
mention.  Machine pointers are modelled as natural numbers (0 is the null
pointer; mmap never yields address 0 for a hint-free request, so reservation
bases are arbitrary nonzero numbers supplied as parameters).  Byte stores are
total functions from offsets to byte values.  Operations that can throw are
modelled as functions into an error monad; because the library performs its
own logical checks (capacity, bounds) before any OS call, and the OS calls it
then makes are valid by construction, the deterministic model makes exactly
the library-level checks fail.
-/

namespace Decodeless

/-- Page-boundary round-up, exactly the expression
`((size + ps - 1) / ps) * ps` from `ResizableMappedMemory::resize`.
`detail::pageSize()` queries `sysconf(_SC_PAGESIZE)` once at runtime, so the
page size appears as an explicit parameter `ps` of every operation that uses
it. -/
def alignUpPage (ps n : Nat) : Nat := ((n + ps - 1) / ps) * ps

/-- The errors the library can surface: `badAlloc` is `std::bad_alloc`
(called OutOfMemory by the spec), `mapError` is a `mapping_error` thrown via
`LastError` when an OS mapping call fails, and `boundsViolation` is the
sub-range sync bounds-check failure. -/
inductive MapErr where
  | badAlloc
  | mapError
  | boundsViolation
deriving DecidableEq, Repr

/-- A file as visible on disk: its `st_size` and its byte contents.  Offsets
at or beyond `len` are kept at 0 (they are not meaningful). -/
structure DiskFile where
  len : Nat
  contents : Nat → Nat

/-- The mmap flags that matter to `MappedFile`: `MAP_PRIVATE` gives a
copy-on-write view whose modifications are never carried through to the
file, `MAP_SHARED` carries writes through to the file. -/
inductive MapFlags where
  | mapPrivate
  | mapShared
deriving DecidableEq, Repr

/-- `MappedFile<Writable>` from mappedfile_linux.hpp: a `FileDescriptor`
(`O_RDWR` when writable, else `O_RDONLY`) plus one `MemoryMap` of
`m_file.size()` bytes created with the constructor-supplied map flags.
`view` is the byte content seen through `data()`. -/
structure MappedFile where
  writable : Bool
  flags : MapFlags
  msize : Nat
  view : Nat → Nat

/-- The `MappedFile` constructor, `MappedFile(path, mapFlags = MAP_PRIVATE)`.
The member `m_mapped` runs `mmap(nullptr, m_file.size(), prot, mapFlags, fd, 0)`;
POSIX `mmap` fails with `EINVAL` when the requested length is zero, which the
`MemoryMap` constructor turns into a thrown `LastError` (`mapping_error`).
Otherwise the fresh view reflects the file contents. -/
def MappedFile.construct (writable : Bool) (f : DiskFile)
    (mapFlags : MapFlags := .mapPrivate) : Except MapErr MappedFile :=
  if f.len = 0 then .error .mapError
  else .ok { writable := writable, flags := mapFlags, msize := f.len,
             view := fun k => if k < f.len then f.contents k else 0 }

/-- `MappedFile::size()` is `m_mapped.size()`. -/
def MappedFile.size (m : MappedFile) : Nat := m.msize

/-- A one-byte store through the raw `data()` pointer, `data()[k] = b`.
Callers stay inside the mapped view. -/
def MappedFile.write (m : MappedFile) (k b : Nat) : MappedFile :=
  { m with view := fun j => if j = k then b else m.view j }

/-- Destroying a `MappedFile`: `~MemoryMap` msyncs when `Writable` and then
unmaps.  For a `MAP_SHARED` view the dirty bytes reach the file; for the
default `MAP_PRIVATE` view the copy-on-write pages are discarded and the
on-disk file is untouched. -/
def MappedFile.drop (m : MappedFile) (f : DiskFile) : DiskFile :=
  match m.flags with
  | .mapShared =>
      if m.writable then
        { f with contents := fun k => if k < m.msize then m.view k else f.contents k }
      else f
  | .mapPrivate => f

/-- Little-endian decoding of the first four bytes of a store, the way the
tests read an `int` through the mapping. -/
def decodeLE4 (g : Nat → Nat) : Nat :=
  g 0 + 256 * (g 1 + 256 * (g 2 + 256 * g 3))

/-- `ResizableMappedFile` (POSIX): `m_reserved` is a `PROT_NONE`
`MAP_PRIVATE | MAP_ANONYMOUS | MAP_NORESERVE` reservation of `maxSize` bytes
at an OS-chosen base; `m_file` the `O_CREAT | O_RDWR` descriptor; `m_mapped`
an optional `MAP_FIXED | MAP_SHARED` read-write view at the reservation base,
recorded here by its length.  `shared` is the page-cache content seen both
through the mapping and by readers of the file; `durable` is what re-reading
the file would return if nothing further were flushed (msync moves bytes from
`shared` to `durable`). -/
structure ResizableMappedFile where
  reservedBase : Nat
  reservedSize : Nat
  fileLen : Nat
  shared : Nat → Nat
  durable : Nat → Nat
  mapped : Option Nat

/-- `ResizableMappedFile::ResizableMappedFile(path, maxSize)`: reserve
`maxSize` bytes at `base`, open (creating if absent) the file, run
`throwIfAbove(m_file.size(), m_reserved.size())` which throws
`std::bad_alloc` when the existing file exceeds the reservation, and
otherwise map the existing bytes (if any) at the reservation base.  The
second component is the on-disk file immediately after the call: the
constructor never truncates or writes it. -/
def ResizableMappedFile.construct (base maxSize : Nat) (f : DiskFile) :
    Except MapErr ResizableMappedFile × DiskFile :=
  if f.len > maxSize then (.error .badAlloc, f)
  else
    (.ok { reservedBase := base
           reservedSize := maxSize
           fileLen := f.len
           shared := fun k => if k < f.len then f.contents k else 0
           durable := fun k => if k < f.len then f.contents k else 0
           mapped := if f.len ≠ 0 then some f.len else none }, f)

/-- Construction, keeping only the object. -/
def ResizableMappedFile.create (base maxSize : Nat) (f : DiskFile) :
    Except MapErr ResizableMappedFile :=
  (ResizableMappedFile.construct base maxSize f).1

/-- `data()` is `m_mapped ? m_mapped->address() : nullptr`; a live view sits
at the reservation base because it was mapped there with `MAP_FIXED`. -/
def ResizableMappedFile.data (r : ResizableMappedFile) : Nat :=
  match r.mapped with
  | some _ => r.reservedBase
  | none => 0

/-- `size()` is `m_mapped ? m_mapped->size() : 0`. -/
def ResizableMappedFile.size (r : ResizableMappedFile) : Nat :=
  match r.mapped with
  | some n => n
  | none => 0

/-- `capacity()` is `m_reserved.size()`. -/
def ResizableMappedFile.capacity (r : ResizableMappedFile) : Nat := r.reservedSize

/-- `ResizableMappedFile::resize(size)`: first
`throwIfAbove(size, m_reserved.size())` throws `std::bad_alloc`, leaving
every member and the file untouched; then `m_mapped.reset()` destroys the old
view (the `MemoryMapRW` destructor msyncs it, making the previously mapped
range durable, and restores `PROT_NONE` over that part of the reservation),
`m_file.truncate(size)` sets the on-disk length (growth zero-fills, shrink
discards the tail), and when `size` is nonzero `map(size)` installs a fresh
`MAP_FIXED | MAP_SHARED` view at the reservation base. -/
def ResizableMappedFile.resize (r : ResizableMappedFile) (n : Nat) :
    Except MapErr Unit × ResizableMappedFile :=
  if n > r.reservedSize then (.error .badAlloc, r)
  else
    (.ok (), { r with
      durable := fun k => if k < r.size then r.shared k else r.durable k
      shared := fun k => if k < n then r.shared k else 0
      fileLen := n
      mapped := if n ≠ 0 then some n else none })

/-- `resize` in the error monad: a thrown exception propagates and the
object (unchanged in that case) is abandoned. -/
def ResizableMappedFile.resizeE (r : ResizableMappedFile) (n : Nat) :
    Except MapErr ResizableMappedFile :=
  match r.resize n with
  | (.ok _, r') => .ok r'
  | (.error e, _) => .error e

/-- A sequence of `resize` calls, failing as soon as one throws. -/
def ResizableMappedFile.resizeSeq (r : ResizableMappedFile) :
    List Nat → Except MapErr ResizableMappedFile
  | [] => .ok r
  | n :: t =>
    match r.resizeE n with
    | .ok r' => r'.resizeSeq t
    | .error e => .error e

/-- Modelled from the spec: the `resizable_mapped_file` concept in
include/decodeless/mappedfile.hpp requires `sync()` and
`sync(offset, length)` members on `resizable_file`, but the implementation of
that member is not among the source files.  Following the words of the spec,
`sync(offset, length)` bounds-checks that the interval from `offset` to
`offset + length` lies within the mapped size and then issues a synchronous
page flush (msync) over exactly that byte sub-range, making those bytes
durable. -/
def ResizableMappedFile.syncRange (r : ResizableMappedFile) (off len : Nat) :
    Except MapErr Unit × ResizableMappedFile :=
  if off + len > r.size then (.error .boundsViolation, r)
  else
    (.ok (), { r with
      durable := fun k => if off ≤ k ∧ k < off + len then r.shared k else r.durable k })

/-- `ResizableMappedMemory`: `m_reserved` is a `PROT_NONE`
`MAP_PRIVATE | MAP_ANONYMOUS | MAP_NORESERVE` reservation of `maxSize` bytes
(the kernel backs whole pages, so the reservation actually covers
`alignUpPage ps maxSize` addressable bytes); `m_size` is the caller-visible
length and `m_mappedSize` the page-aligned committed length.  `mem` is the
byte content at each offset from the base; offsets outside the committed
range are 0 (either untouched anonymous pages or pages discarded by
`MADV_DONTNEED`). -/
structure ResizableMappedMemory where
  reservedBase : Nat
  reservedSize : Nat
  m_size : Nat
  m_mappedSize : Nat
  mem : Nat → Nat

/-- `ResizableMappedMemory::resize(size)`: throw `std::bad_alloc` when
`size > capacity()`; align `size` up to the next page boundary; when the
aligned size grows, `mprotect` the added tail of the reservation to
read-write (a permission change only, and the pages there read 0); when it
shrinks, revert the dropped tail to `PROT_NONE` and `MADV_DONTNEED` it, which
discards its contents (reads after a later recommit give 0); finally store
the new mapped size and logical size.  The `mprotect` calls succeed because
`size ≤ capacity` keeps them inside the page-backed reservation. -/
def ResizableMappedMemory.resize (ps : Nat) (r : ResizableMappedMemory) (size : Nat) :
    Except MapErr Unit × ResizableMappedMemory :=
  if size > r.reservedSize then (.error .badAlloc, r)
  else
    let newMappedSize := alignUpPage ps size
    if newMappedSize > r.m_mappedSize then
      (.ok (), { r with m_mappedSize := newMappedSize, m_size := size })
    else if newMappedSize < r.m_mappedSize then
      (.ok (), { r with
        mem := fun k => if newMappedSize ≤ k ∧ k < r.m_mappedSize then 0 else r.mem k
        m_mappedSize := newMappedSize
        m_size := size })
    else
      (.ok (), { r with m_size := size })

/-- `ResizableMappedMemory(initialSize, maxSize)`: reserve `maxSize` bytes at
the OS-chosen base and run `resize(initialSize)` from the default member
values `m_size = 0`, `m_mappedSize = 0`; a throw aborts construction. -/
def ResizableMappedMemory.create (ps base initialSize maxSize : Nat) :
    Except MapErr ResizableMappedMemory :=
  match ResizableMappedMemory.resize ps
      { reservedBase := base, reservedSize := maxSize, m_size := 0,
        m_mappedSize := 0, mem := fun _ => 0 } initialSize with
  | (.ok _, r) => .ok r
  | (.error e, _) => .error e

/-- `data()` is `m_size ? m_reserved.address() : nullptr`. -/
def ResizableMappedMemory.data (r : ResizableMappedMemory) : Nat :=
  if r.m_size ≠ 0 then r.reservedBase else 0

/-- `size()` is `m_size`. -/
def ResizableMappedMemory.size (r : ResizableMappedMemory) : Nat := r.m_size

/-- `capacity()` is `m_reserved.size()`. -/
def ResizableMappedMemory.capacity (r : ResizableMappedMemory) : Nat := r.reservedSize

/-- `resize` in the error monad. -/
def ResizableMappedMemory.resizeE (ps : Nat) (r : ResizableMappedMemory) (n : Nat) :
    Except MapErr ResizableMappedMemory :=
  match ResizableMappedMemory.resize ps r n with
  | (.ok _, r') => .ok r'
  | (.error e, _) => .error e

/-- A sequence of `resize` calls, failing as soon as one throws. -/
def ResizableMappedMemory.resizeSeq (ps : Nat) (r : ResizableMappedMemory) :
    List Nat → Except MapErr ResizableMappedMemory
  | [] => .ok r
  | n :: t =>
    match ResizableMappedMemory.resizeE ps r n with
    | .ok r' => ResizableMappedMemory.resizeSeq ps r' t
    | .error e => .error e

/-- An existing empty file. -/
def emptyDisk : DiskFile := { len := 0, contents := fun _ => 0 }

/-- A four-byte file holding the little-endian encoding of the integer 42,
the fixture file of the test suite. -/
def disk42 : DiskFile := { len := 4, contents := fun k => if k = 0 then 42 else 0 }

/-- A 1500-byte file, for the oversized-construction witness. -/
def disk1500 : DiskFile := { len := 1500, contents := fun _ => 7 }

/-- The S2 scenario at the input of the test called Writable: open the
four-byte file holding little-endian 42 with the writable whole-file mapping
(default map flags, which are `MAP_PRIVATE`), overwrite the four bytes with
the little-endian encoding of 123, destroy the mapping, and decode the first
four bytes as re-read from disk. -/
def writableScenario : Except MapErr Nat :=
  (MappedFile.construct true disk42).map (fun m =>
    decodeLE4 (MappedFile.drop ((((m.write 0 123).write 1 0).write 2 0).write 3 0)
      disk42).contents)

/-- A resizable file freshly constructed on an empty file: reservation base
4096, capacity 4096. -/
def c1Initial : Except MapErr ResizableMappedFile :=
  ResizableMappedFile.create 4096 4096 emptyDisk

/-- The same object after the successful call `resize(13)`. -/
def c1AfterResize : Except MapErr ResizableMappedFile :=
  c1Initial.bind (fun r => r.resizeE 13)

/-- `ResizableMappedMemory(0, 10000)` with page size 4096 followed by
`resize(10000)`, the resize sequence of the test called ResizeMemory. -/
def c7Run : Except MapErr ResizableMappedMemory :=
  (ResizableMappedMemory.create 4096 4096 0 10000).bind
    (fun r => ResizableMappedMemory.resizeE 4096 r 10000)

/-- A live resizable file with a mapped view of 10 bytes, for the sync
witness. -/
def rfSample : ResizableMappedFile :=
  { reservedBase := 4096, reservedSize := 100, fileLen := 10,
    shared := fun k => if k < 10 then k + 1 else 0,
    durable := fun _ => 0, mapped := some 10 }

/-- A committed resizable memory region: page size 4096, one committed page,
five visible bytes. -/
def rmSample : ResizableMappedMemory :=
  { reservedBase := 8192, reservedSize := 20000, m_size := 5,
    m_mappedSize := 4096, mem := fun k => if k < 5 then k + 10 else 0 }

/-- A fresh `ResizableMappedMemory(0, 20000)` at base 8192, page size 4096,
written out for the stability witness. -/
def c1rm0 : ResizableMappedMemory :=
  { reservedBase := 8192, reservedSize := 20000, m_size := 0,
    m_mappedSize := 0, mem := fun _ => 0 }

/-- The state of `c1rm0` after the successful `resize(5)`. -/
def c1rm1 : ResizableMappedMemory :=
  { reservedBase := 8192, reservedSize := 20000, m_size := 5,
    m_mappedSize := 4096, mem := fun _ => 0 }

/-- A fresh `ResizableMappedMemory(0, 10000)` at base 4096, page size 4096,
for the commitment-invariant witness. -/
def c7w0 : ResizableMappedMemory :=
  { reservedBase := 4096, reservedSize := 10000, m_size := 0,
    m_mappedSize := 0, mem := fun _ => 0 }

/-- The state of `c7w0` after the successful `resize(10000)`. -/
def c7w1 : ResizableMappedMemory :=
  { reservedBase := 4096, reservedSize := 10000, m_size := 10000,
    m_mappedSize := 12288, mem := fun _ => 0 }

/-- A fresh `ResizableMappedMemory(3, 9999)` at base 12288, page size 4096. -/
def c10r0 : ResizableMappedMemory :=
  { reservedBase := 12288, reservedSize := 9999, m_size := 3,
    m_mappedSize := 4096, mem := fun _ => 0 }

theorem alignUpPage_mod (ps n : Nat) : alignUpPage ps n % ps = 0 :=
  Nat.mul_mod_left _ _

theorem le_alignUpPage (ps n : Nat) (hps : 0 < ps) : n ≤ alignUpPage ps n := by
  rcases n with _ | m
  · exact Nat.zero_le _
  · unfold alignUpPage
    have h1 : m + 1 + ps - 1 = m + ps := by omega
    rw [h1, Nat.add_div_right m hps]
    have h3 : m % ps < ps := Nat.mod_lt _ hps
    have h4 : m / ps * ps + m % ps = m := by
      have h5 := Nat.div_add_mod m ps
      rw [Nat.mul_comm] at h5
      exact h5
    calc m + 1 ≤ m / ps * ps + ps := by omega
      _ = (m / ps + 1) * ps := by ring

theorem alignUpPage_mono (ps : Nat) {a b : Nat} (h : a ≤ b) :
    alignUpPage ps a ≤ alignUpPage ps b :=
  Nat.mul_le_mul_right _ (Nat.div_le_div_right (by omega))

theorem alignUpPage_zero (ps : Nat) : alignUpPage ps 0 = 0 := by
  unfold alignUpPage
  rcases Nat.eq_zero_or_pos ps with h | h
  · subst h; rfl
  · have h0 : (0 + ps - 1) / ps = 0 := Nat.div_eq_of_lt (by omega)
    rw [h0, Nat.zero_mul]

theorem ResizableMappedFile.resizeE_fields {r r' : ResizableMappedFile} {n : Nat}
    (h : r.resizeE n = .ok r') :
    r'.reservedBase = r.reservedBase ∧ r'.reservedSize = r.reservedSize ∧
    r'.fileLen = n ∧ r'.mapped = (if n ≠ 0 then some n else none) := by
  unfold ResizableMappedFile.resizeE ResizableMappedFile.resize at h
  by_cases hc : n > r.reservedSize
  · rw [if_pos hc] at h
    simp at h
  · rw [if_neg hc] at h
    simp at h
    subst h
    refine ⟨rfl, rfl, rfl, ?_⟩
    by_cases hn : n = 0 <;> simp [hn]

theorem ResizableMappedFile.resizeE_data {r r' : ResizableMappedFile} {n : Nat}
    (h : r.resizeE n = .ok r') :
    r'.reservedBase = r.reservedBase ∧
    r'.data = (if r'.size = 0 then 0 else r.reservedBase) := by
  obtain ⟨hb, -, -, hm⟩ := ResizableMappedFile.resizeE_fields h
  refine ⟨hb, ?_⟩
  unfold ResizableMappedFile.data ResizableMappedFile.size
  rw [hm]
  by_cases hn : n = 0
  · subst hn; simp
  · simp [hn, hb]

theorem ResizableMappedFile.create_fields {base cap : Nat} {f : DiskFile}
    {r : ResizableMappedFile}
    (h : ResizableMappedFile.create base cap f = .ok r) :
    r.reservedBase = base ∧ r.reservedSize = cap ∧ r.fileLen = f.len ∧
    r.mapped = (if f.len ≠ 0 then some f.len else none) := by
  unfold ResizableMappedFile.create ResizableMappedFile.construct at h
  by_cases hc : f.len > cap
  · rw [if_pos hc] at h
    simp at h
  · rw [if_neg hc] at h
    simp at h
    subst h
    refine ⟨rfl, rfl, rfl, ?_⟩
    by_cases hn : f.len = 0 <;> simp [hn]

theorem ResizableMappedFile.create_data {base cap : Nat} {f : DiskFile}
    {r : ResizableMappedFile}
    (h : ResizableMappedFile.create base cap f = .ok r) :
    r.reservedBase = base ∧ r.data = (if r.size = 0 then 0 else base) := by
  obtain ⟨hb, -, -, hm⟩ := ResizableMappedFile.create_fields h
  refine ⟨hb, ?_⟩
  unfold ResizableMappedFile.data ResizableMappedFile.size
  rw [hm]
  by_cases hn : f.len = 0
  · simp [hn]
  · simp [hn, hb]

theorem ResizableMappedFile.resizeSeq_data {l : List Nat} :
    ∀ {base : Nat} {r r' : ResizableMappedFile},
    r.reservedBase = base → (r.data = if r.size = 0 then 0 else base) →
    r.resizeSeq l = .ok r' →
    r'.reservedBase = base ∧ (r'.data = if r'.size = 0 then 0 else base) := by
  induction l with
  | nil =>
    intro base r r' h1 h2 h3
    unfold ResizableMappedFile.resizeSeq at h3
    injection h3 with h4
    subst h4
    exact ⟨h1, h2⟩
  | cons a t ih =>
    intro base r r' h1 h2 h3
    unfold ResizableMappedFile.resizeSeq at h3
    cases hh : r.resizeE a with
    | error e =>
      rw [hh] at h3
      simp at h3
    | ok r1 =>
      rw [hh] at h3
      simp only [] at h3
      obtain ⟨hb1, hd1⟩ := ResizableMappedFile.resizeE_data hh
      exact ih (by rw [hb1, h1]) (by rw [hd1, h1]) h3

theorem ResizableMappedMemory.resizeEMem_fields {ps n : Nat}
    {r r' : ResizableMappedMemory}
    (h : ResizableMappedMemory.resizeE ps r n = .ok r') :
    r'.reservedBase = r.reservedBase ∧ r'.reservedSize = r.reservedSize ∧
    r'.m_size = n ∧ r'.m_mappedSize = alignUpPage ps n ∧ n ≤ r.reservedSize := by
  unfold ResizableMappedMemory.resizeE ResizableMappedMemory.resize at h
  by_cases hc : n > r.reservedSize
  · rw [if_pos hc] at h
    simp at h
  · rw [if_neg hc] at h
    simp only [] at h
    by_cases h1 : alignUpPage ps n > r.m_mappedSize
    · rw [if_pos h1] at h
      simp at h
      subst h
      exact ⟨rfl, rfl, rfl, rfl, by omega⟩
    · rw [if_neg h1] at h
      by_cases h2 : alignUpPage ps n < r.m_mappedSize
      · rw [if_pos h2] at h
        simp at h
        subst h
        exact ⟨rfl, rfl, rfl, rfl, by omega⟩
      · rw [if_neg h2] at h
        simp at h
        subst h
        refine ⟨rfl, rfl, rfl, ?_, by omega⟩
        show r.m_mappedSize = alignUpPage ps n
        omega

theorem ResizableMappedMemory.resizeEMem_data {ps n : Nat}
    {r r' : ResizableMappedMemory}
    (h : ResizableMappedMemory.resizeE ps r n = .ok r') :
    r'.reservedBase = r.reservedBase ∧
    r'.data = (if r'.size = 0 then 0 else r.reservedBase) := by
  obtain ⟨hb, -, hs, -, -⟩ := ResizableMappedMemory.resizeEMem_fields h
  refine ⟨hb, ?_⟩
  unfold ResizableMappedMemory.data ResizableMappedMemory.size
  rw [hs, hb]
  by_cases hn : n = 0
  · simp [hn]
  · simp [hn]

theorem ResizableMappedMemory.create_eq {ps base i cap : Nat}
    {r : ResizableMappedMemory}
    (h : ResizableMappedMemory.create ps base i cap = .ok r) :
    ResizableMappedMemory.resizeE ps
      { reservedBase := base, reservedSize := cap, m_size := 0,
        m_mappedSize := 0, mem := fun _ => 0 } i = .ok r := by
  unfold ResizableMappedMemory.create at h
  unfold ResizableMappedMemory.resizeE
  cases hh : ResizableMappedMemory.resize ps
      { reservedBase := base, reservedSize := cap, m_size := 0,
        m_mappedSize := 0, mem := fun _ => 0 } i with
  | mk e s =>
    rw [hh] at h
    cases e with
    | ok u => simpa using h
    | error e => simp at h

theorem ResizableMappedMemory.resizeSeqMem_data {l : List Nat} :
    ∀ {ps base : Nat} {r r' : ResizableMappedMemory},
    r.reservedBase = base → (r.data = if r.size = 0 then 0 else base) →
    ResizableMappedMemory.resizeSeq ps r l = .ok r' →
    r'.reservedBase = base ∧ (r'.data = if r'.size = 0 then 0 else base) := by
  induction l with
  | nil =>
    intro ps base r r' h1 h2 h3
    unfold ResizableMappedMemory.resizeSeq at h3
    injection h3 with h4
    subst h4
    exact ⟨h1, h2⟩
  | cons a t ih =>
    intro ps base r r' h1 h2 h3
    unfold ResizableMappedMemory.resizeSeq at h3
    cases hh : ResizableMappedMemory.resizeE ps r a with
    | error e =>
      rw [hh] at h3
      simp at h3
    | ok r1 =>
      rw [hh] at h3
      simp only [] at h3
      obtain ⟨hb1, hd1⟩ := ResizableMappedMemory.resizeEMem_data hh
      exact ih (by rw [hb1, h1]) (by rw [hd1, h1]) h3

/-- Claim C2: file-size agreement.  For every `ResizableFile` and every `n`,
if `resize(n)` returns successfully then the on-disk length of the backing
file equals `n` at that moment (`m_file.truncate(size)` sets it). -/
theorem resizableFile_resize_sets_disk_length (r : ResizableMappedFile) (n : Nat)
    (h : (r.resize n).1 = .ok ()) : ((r.resize n).2).fileLen = n := by
  unfold ResizableMappedFile.resize at h ⊢
  by_cases hc : n > r.reservedSize
  · rw [if_pos hc] at h
    simp at h
  · rw [if_neg hc]

/-- Witness for claim C2 at a concrete input. -/
theorem resizableFile_resize_sets_disk_length_witness :
    (rfSample.resize 5).1 = .ok () ∧ ((rfSample.resize 5).2).fileLen = 5 :=
  ⟨by rfl, resizableFile_resize_sets_disk_length rfSample 5 (by rfl)⟩

/-- Claim C3: capacity enforcement with atomicity on error.  For every
`ResizableFile` or `ResizableMemory` with capacity `c` and every `n > c`,
`resize(n)` fails with OutOfMemory (`std::bad_alloc`) and the object is
exactly what it was before the call; in particular `data()`, `size()`,
`capacity()` and (file-backed) the on-disk file length are unchanged,
because `throwIfAbove` respectively the `size > capacity()` check runs
before any destructive step. -/
theorem resize_over_capacity_fails_atomically :
    (∀ (r : ResizableMappedFile) (n : Nat), r.capacity < n →
      (r.resize n).1 = .error .badAlloc ∧ (r.resize n).2 = r ∧
      ((r.resize n).2).data = r.data ∧ ((r.resize n).2).size = r.size ∧
      ((r.resize n).2).capacity = r.capacity ∧
      ((r.resize n).2).fileLen = r.fileLen)
    ∧ (∀ (ps : Nat) (r : ResizableMappedMemory) (n : Nat), r.capacity < n →
      (ResizableMappedMemory.resize ps r n).1 = .error .badAlloc ∧
      (ResizableMappedMemory.resize ps r n).2 = r ∧
      ((ResizableMappedMemory.resize ps r n).2).data = r.data ∧
      ((ResizableMappedMemory.resize ps r n).2).size = r.size ∧
      ((ResizableMappedMemory.resize ps r n).2).capacity = r.capacity) := by
  constructor
  · intro r n hn
    have hn' : n > r.reservedSize := hn
    unfold ResizableMappedFile.resize
    rw [if_pos hn']
    exact ⟨rfl, rfl, rfl, rfl, rfl, rfl⟩
  · intro ps r n hn
    have hn' : n > r.reservedSize := hn
    unfold ResizableMappedMemory.resize
    rw [if_pos hn']
    exact ⟨rfl, rfl, rfl, rfl, rfl⟩

/-- Witness for claim C3 at concrete inputs: capacity 100 and 20000, request
10001 more than each capacity. -/
theorem resize_over_capacity_fails_atomically_witness :
    (rfSample.capacity < 101 ∧ (rfSample.resize 101).1 = .error .badAlloc ∧
      (rfSample.resize 101).2 = rfSample) ∧
    (rmSample.capacity < 20001 ∧
      (ResizableMappedMemory.resize 4096 rmSample 20001).1 = .error .badAlloc ∧
      (ResizableMappedMemory.resize 4096 rmSample 20001).2 = rmSample) :=
  ⟨⟨by decide, ((resize_over_capacity_fails_atomically.1 rfSample 101
      (by decide)).1), ((resize_over_capacity_fails_atomically.1 rfSample 101
      (by decide)).2.1)⟩,
    ⟨by decide, ((resize_over_capacity_fails_atomically.2 4096 rmSample 20001
      (by decide)).1), ((resize_over_capacity_fails_atomically.2 4096 rmSample
      20001 (by decide)).2.1)⟩⟩

/-- Claim C5: oversized-file construction fails cleanly.  For every existing
file of on-disk length l and every capacity below l, constructing
`ResizableFile(path, capacity)` fails with OutOfMemory (`std::bad_alloc`
from `throwIfAbove`) and the file contents and length are not modified: the
constructor only opens the file and maps it, never truncating or writing. -/
theorem resizableFile_construct_oversized_fails (base cap : Nat) (f : DiskFile)
    (h : cap < f.len) :
    (ResizableMappedFile.construct base cap f).1 = .error .badAlloc ∧
    (ResizableMappedFile.construct base cap f).2 = f := by
  have h' : f.len > cap := h
  unfold ResizableMappedFile.construct
  rw [if_pos h']
  exact ⟨rfl, rfl⟩

/-- Witness for claim C5: a 1500-byte file opened with capacity 1499, the S4
scenario of the spec. -/
theorem resizableFile_construct_oversized_fails_witness :
    1499 < disk1500.len ∧
    (ResizableMappedFile.construct 4096 1499 disk1500).1 = .error .badAlloc ∧
    (ResizableMappedFile.construct 4096 1499 disk1500).2 = disk1500 :=
  ⟨by decide, resizableFile_construct_oversized_fails 4096 1499 disk1500 (by decide)⟩

/-- Claim C1 counterexample: a `ResizableFile` constructed on an existing
empty file observes `data() = null` before its first resize and the nonzero
reservation base after the successful `resize(13)`.  No `resize(0)` precedes
the first observation, so no exemption applies and the two observed values
differ: the claim as stated fails at this input. -/
theorem resizableFile_data_differs_across_first_resize :
    c1Initial.map ResizableMappedFile.data = .ok 0 ∧
    c1AfterResize.map ResizableMappedFile.data = .ok 4096 ∧
    (0 : Nat) ≠ 4096 :=
  ⟨rfl, rfl, by decide⟩

/-- Claim C1 amended: for every `ResizableFile` or `ResizableMemory` and
every sequence of successful `resize` calls, each observation of `data()`
equals the reservation base whenever the current `size()` is nonzero and is
null whenever the current `size()` is zero (which covers both a `resize(0)`
immediately before the observation and the initial state of a file-backed
object whose file was empty).  In particular `data()` is one constant value
across all observations at which `size() > 0`. -/
theorem resizable_data_address_stability :
    (∀ (base cap : Nat) (f : DiskFile) (r0 rf : ResizableMappedFile)
      (l : List Nat),
      ResizableMappedFile.create base cap f = .ok r0 →
      r0.resizeSeq l = .ok rf →
      rf.reservedBase = base ∧ rf.data = (if rf.size = 0 then 0 else base))
    ∧ (∀ (ps base i cap : Nat) (r0 rm : ResizableMappedMemory) (l : List Nat),
      ResizableMappedMemory.create ps base i cap = .ok r0 →
      ResizableMappedMemory.resizeSeq ps r0 l = .ok rm →
      rm.reservedBase = base ∧ rm.data = (if rm.size = 0 then 0 else base)) := by
  constructor
  · intro base cap f r0 rf l h0 hs
    obtain ⟨hb, hd⟩ := ResizableMappedFile.create_data h0
    exact ResizableMappedFile.resizeSeq_data hb hd hs
  · intro ps base i cap r0 rm l h0 hs
    have h0' := ResizableMappedMemory.create_eq h0
    obtain ⟨hb, hd⟩ := ResizableMappedMemory.resizeEMem_data h0'
    exact ResizableMappedMemory.resizeSeqMem_data hb hd hs

/-- Witness for the amended claim C1: `ResizableMemory(0, 20000)` then
`resize(5)`. -/
theorem resizable_data_address_stability_witness :
    ResizableMappedMemory.create 4096 8192 0 20000 = .ok c1rm0 ∧
    ResizableMappedMemory.resizeSeq 4096 c1rm0 [5] = .ok c1rm1 ∧
    c1rm1.reservedBase = 8192 ∧
    c1rm1.data = (if c1rm1.size = 0 then 0 else 8192) :=
  ⟨rfl, rfl,
    (resizable_data_address_stability.2 4096 8192 0 20000 c1rm0 c1rm1 [5]
      rfl rfl).1,
    (resizable_data_address_stability.2 4096 8192 0 20000 c1rm0 c1rm1 [5]
      rfl rfl).2⟩

/-- Claim C4: resizing retains the common range.  For every
`ResizableMemory` at current size `size_old`, every successful
`resize(size_new)` leaves the byte at every offset below
`min(size_old, size_new)` unchanged: growth only changes page protections,
and the shrink branch discards only pages from the new page-aligned mapped
size upward, which lies at or above `size_new`. -/
theorem resizableMemory_resize_retains_bytes (ps : Nat) (hps : 0 < ps)
    (r : ResizableMappedMemory) (n k : Nat) (hk : k < min r.m_size n)
    (h : (ResizableMappedMemory.resize ps r n).1 = .ok ()) :
    ((ResizableMappedMemory.resize ps r n).2).mem k = r.mem k := by
  unfold ResizableMappedMemory.resize at h ⊢
  by_cases hc : n > r.reservedSize
  · rw [if_pos hc] at h
    simp at h
  · rw [if_neg hc] at h ⊢
    simp only [] at h ⊢
    by_cases h1 : alignUpPage ps n > r.m_mappedSize
    · rw [if_pos h1]
    · rw [if_neg h1]
      by_cases h2 : alignUpPage ps n < r.m_mappedSize
      · rw [if_pos h2]
        show (if alignUpPage ps n ≤ k ∧ k < r.m_mappedSize then 0 else r.mem k)
          = r.mem k
        have hkn : k < n := by omega
        have hka : k < alignUpPage ps n :=
          lt_of_lt_of_le hkn (le_alignUpPage ps n hps)
        rw [if_neg (by omega)]
      · rw [if_neg h2]

/-- Witness for claim C4: one committed page holding bytes 10..14, shrink
from size 5 to size 2, offset 1 is retained. -/
theorem resizableMemory_resize_retains_bytes_witness :
    (0 : Nat) < 4096 ∧ 1 < min rmSample.m_size 2 ∧
    (ResizableMappedMemory.resize 4096 rmSample 2).1 = .ok () ∧
    ((ResizableMappedMemory.resize 4096 rmSample 2).2).mem 1 = rmSample.mem 1 :=
  ⟨by decide, by decide, by rfl,
    resizableMemory_resize_retains_bytes 4096 (by decide) rmSample 2 1
      (by decide) (by rfl)⟩

/-- Claim C6, evaluated at the failing input of the test called Writable:
the writable whole-file mapping is created with the default
`mapFlags = MAP_PRIVATE`, so overwriting the first four bytes with the
little-endian encoding of 123 and dropping the mapping leaves the on-disk
file holding 42; the bytes re-read from disk decode to 42, not 123.  This
contradicts the test in the repository, which expects 123. -/
theorem writable_mapping_write_not_persisted :
    writableScenario = .ok 42 ∧ (42 : Nat) ≠ 123 :=
  ⟨rfl, by decide⟩

/-- Claim C7 counterexample: `ResizableMemory(0, 10000)` with page size 4096
followed by the successful `resize(10000)` reaches
`mapped_size = 12288 > 10000 = capacity`, refuting the stated invariant
`mapped_size ≤ capacity` (the committed length is page-rounded while the
capacity need not be). -/
theorem resizableMemory_mappedSize_exceeds_capacity :
    c7Run.map (fun r => (ResizableMappedMemory.size r, r.m_mappedSize,
      ResizableMappedMemory.capacity r)) = .ok (10000, 12288, 10000) ∧
    ¬((12288 : Nat) ≤ 10000) :=
  ⟨rfl, by decide⟩

/-- Claim C7 amended: after construction and after every successful
`resize(n)`, `size() = n`, the committed length `m_mappedSize` equals
`ceil(n / pageSize) * pageSize`, `size ≤ mapped_size`, `mapped_size` is
divisible by the page size, and `mapped_size` is bounded by the page-rounded
capacity `ceil(capacity / pageSize) * pageSize` (rather than by `capacity`
itself); and when the page-rounded request equals the previous
`m_mappedSize`, only the `m_size` metadata changes. -/
theorem resizableMemory_commit_invariant :
    (∀ (ps base i cap : Nat) (r0 : ResizableMappedMemory), 0 < ps →
      ResizableMappedMemory.create ps base i cap = .ok r0 →
      r0.m_size = i ∧ r0.m_mappedSize = alignUpPage ps i ∧
      r0.m_size ≤ r0.m_mappedSize ∧
      r0.m_mappedSize ≤ alignUpPage ps r0.capacity ∧
      r0.m_mappedSize % ps = 0)
    ∧ (∀ (ps n : Nat) (r r' : ResizableMappedMemory), 0 < ps →
      ResizableMappedMemory.resizeE ps r n = .ok r' →
      r'.m_size = n ∧ r'.m_mappedSize = alignUpPage ps n ∧
      r'.m_size ≤ r'.m_mappedSize ∧
      r'.m_mappedSize ≤ alignUpPage ps r'.capacity ∧
      r'.m_mappedSize % ps = 0)
    ∧ (∀ (ps n : Nat) (r : ResizableMappedMemory),
      alignUpPage ps n = r.m_mappedSize →
      (ResizableMappedMemory.resize ps r n).1 = .ok () →
      (ResizableMappedMemory.resize ps r n).2 = { r with m_size := n }) := by
  have key : ∀ (ps n : Nat) (r r' : ResizableMappedMemory), 0 < ps →
      ResizableMappedMemory.resizeE ps r n = .ok r' →
      r'.m_size = n ∧ r'.m_mappedSize = alignUpPage ps n ∧
      r'.m_size ≤ r'.m_mappedSize ∧
      r'.m_mappedSize ≤ alignUpPage ps r'.capacity ∧
      r'.m_mappedSize % ps = 0 := by
    intro ps n r r' hps h
    obtain ⟨-, hc, hs, hm, hle⟩ := ResizableMappedMemory.resizeEMem_fields h
    refine ⟨hs, hm, ?_, ?_, ?_⟩
    · rw [hs, hm]
      exact le_alignUpPage ps n hps
    · show r'.m_mappedSize ≤ alignUpPage ps r'.reservedSize
      rw [hm, hc]
      exact alignUpPage_mono ps hle
    · rw [hm]
      exact alignUpPage_mod ps n
  refine ⟨?_, key, ?_⟩
  · intro ps base i cap r0 hps h0
    exact key ps i _ r0 hps (ResizableMappedMemory.create_eq h0)
  · intro ps n r hmeq h
    unfold ResizableMappedMemory.resize at h ⊢
    by_cases hc : n > r.reservedSize
    · rw [if_pos hc] at h
      simp at h
    · rw [if_neg hc] at h ⊢
      simp only [] at h ⊢
      rw [if_neg (by omega), if_neg (by omega)]

/-- Witness for the amended claim C7: `resize(10000)` on a fresh region of
capacity 10000, page size 4096. -/
theorem resizableMemory_commit_invariant_witness :
    (0 : Nat) < 4096 ∧
    ResizableMappedMemory.resizeE 4096 c7w0 10000 = .ok c7w1 ∧
    (c7w1.m_size = 10000 ∧ c7w1.m_mappedSize = alignUpPage 4096 10000 ∧
      c7w1.m_size ≤ c7w1.m_mappedSize ∧
      c7w1.m_mappedSize ≤ alignUpPage 4096 c7w1.capacity ∧
      c7w1.m_mappedSize % 4096 = 0) :=
  ⟨by decide, rfl,
    resizableMemory_commit_invariant.2.1 4096 10000 c7w0 c7w1 (by decide) rfl⟩

/-- Claim C8 (the sync member is modelled from the spec, its implementation
not being among the source files): `sync(offset, length)` succeeds and
synchronously flushes exactly the bytes of the sub-range from `offset` to
`offset + length` whenever `offset + length ≤ size`, and fails with a
bounds violation, changing nothing, whenever `offset + length > size`. -/
theorem resizableFile_syncRange_bounds (r : ResizableMappedFile)
    (off len : Nat) :
    (off + len ≤ r.size →
      (r.syncRange off len).1 = .ok () ∧
      ∀ k, off ≤ k → k < off + len →
        ((r.syncRange off len).2).durable k = r.shared k)
    ∧ (r.size < off + len →
      (r.syncRange off len).1 = .error .boundsViolation ∧
      (r.syncRange off len).2 = r) := by
  constructor
  · intro hle
    unfold ResizableMappedFile.syncRange
    rw [if_neg (by omega)]
    refine ⟨rfl, ?_⟩
    intro k h1 h2
    show (if off ≤ k ∧ k < off + len then r.shared k else r.durable k)
      = r.shared k
    rw [if_pos ⟨h1, h2⟩]
  · intro hgt
    unfold ResizableMappedFile.syncRange
    rw [if_pos (by omega)]
    exact ⟨rfl, rfl⟩

/-- Witness for claim C8: a live 10-byte mapping; `sync(2, 3)` flushes and
`sync(5, 6)` violates the bounds. -/
theorem resizableFile_syncRange_bounds_witness :
    (2 + 3 ≤ rfSample.size ∧ (rfSample.syncRange 2 3).1 = .ok () ∧
      ((rfSample.syncRange 2 3).2).durable 2 = rfSample.shared 2) ∧
    (rfSample.size < 5 + 6 ∧
      (rfSample.syncRange 5 6).1 = .error .boundsViolation ∧
      (rfSample.syncRange 5 6).2 = rfSample) :=
  ⟨⟨by decide, ((resizableFile_syncRange_bounds rfSample 2 3).1 (by decide)).1,
      ((resizableFile_syncRange_bounds rfSample 2 3).1 (by decide)).2 2
        (by decide) (by decide)⟩,
    ⟨by decide, ((resizableFile_syncRange_bounds rfSample 5 6).2 (by decide)).1,
      ((resizableFile_syncRange_bounds rfSample 5 6).2 (by decide)).2⟩⟩

/-- Claim C9 counterexample: constructing the read-only or the writable
whole-file mapping on an existing file of length 0 does not succeed; the
zero-length `mmap` fails with `EINVAL` and the constructor throws a
`mapping_error`. -/
theorem wholeFile_empty_construction_throws :
    MappedFile.construct false emptyDisk = .error .mapError ∧
    MappedFile.construct true emptyDisk = .error .mapError :=
  ⟨rfl, rfl⟩

/-- Claim C9 amended: for every existing file of length 0, constructing the
read-only or writable whole-file mapping fails with a mapping error (POSIX
`mmap` refuses a zero-length request), with any map flags. -/
theorem wholeFile_empty_construction_error (w : Bool) (f : DiskFile)
    (flags : MapFlags) (h : f.len = 0) :
    MappedFile.construct w f flags = .error .mapError := by
  unfold MappedFile.construct
  rw [if_pos h]

/-- Witness for the amended claim C9. -/
theorem wholeFile_empty_construction_error_witness :
    emptyDisk.len = 0 ∧
    MappedFile.construct true emptyDisk .mapPrivate = .error .mapError :=
  ⟨rfl, wholeFile_empty_construction_error true emptyDisk .mapPrivate rfl⟩

/-- Claim C10: for every `ResizableMemory` reached by construction and any
successful resizes, `data()` is null exactly when `size()` is zero, and
whenever `size() > 0`, `data()` equals the base address of the reservation
(which is nonzero); in particular `ResizableMemory(0, capacity)` yields
`data() = null` and `size() = 0` even though the reservation exists. -/
theorem resizableMemory_data_null_iff_empty :
    (∀ (ps base i cap : Nat) (r0 rm : ResizableMappedMemory) (l : List Nat),
      base ≠ 0 →
      ResizableMappedMemory.create ps base i cap = .ok r0 →
      ResizableMappedMemory.resizeSeq ps r0 l = .ok rm →
      ((rm.data = 0 ↔ rm.size = 0) ∧
        (0 < rm.size → rm.data = rm.reservedBase) ∧ rm.reservedBase = base))
    ∧ (∀ (ps base cap : Nat) (r0 : ResizableMappedMemory),
      ResizableMappedMemory.create ps base 0 cap = .ok r0 →
      r0.data = 0 ∧ r0.size = 0) := by
  constructor
  · intro ps base i cap r0 rm l hb h0 hs
    have h0' := ResizableMappedMemory.create_eq h0
    obtain ⟨hb0, hd0⟩ := ResizableMappedMemory.resizeEMem_data h0'
    dsimp only [] at hb0 hd0
    obtain ⟨hbm, hdm⟩ := ResizableMappedMemory.resizeSeqMem_data hb0 hd0 hs
    refine ⟨?_, ?_, hbm⟩
    · constructor
      · intro hd
        by_contra hsz
        rw [if_neg hsz] at hdm
        exact hb (by rw [← hdm]; exact hd)
      · intro hsz
        rw [hdm, if_pos hsz]
    · intro hpos
      have hsz : ¬ rm.size = 0 := by omega
      rw [hdm, if_neg hsz, hbm]
  · intro ps base cap r0 h0
    have h0' := ResizableMappedMemory.create_eq h0
    obtain ⟨-, -, hs, -, -⟩ := ResizableMappedMemory.resizeEMem_fields h0'
    constructor
    · unfold ResizableMappedMemory.data
      rw [hs]
      simp
    · exact hs

/-- Witness for claim C10: `ResizableMemory(3, 9999)` at base 12288, no
further resizes. -/
theorem resizableMemory_data_null_iff_empty_witness :
    (12288 : Nat) ≠ 0 ∧
    ResizableMappedMemory.create 4096 12288 3 9999 = .ok c10r0 ∧
    ((c10r0.data = 0 ↔ c10r0.size = 0) ∧
      (0 < c10r0.size → c10r0.data = c10r0.reservedBase) ∧
      c10r0.reservedBase = 12288) :=
  ⟨by decide, rfl,
    resizableMemory_data_null_iff_empty.1 4096 12288 3 9999 c10r0 c10r0 []
      (by decide) rfl rfl⟩

end Decodeless
